import Mathlib

/-!
# Environment service types of zadig: readiness rollup and request validation

Shallow embedding of `pkg/microservice/aslan/core/environment/service/types.go`.

Modelling conventions

* Go `string` is `String`; the code only compares strings with `""` or with
  constants and appends them to a message, so the byte/character distinction
  is not observable.
* Go `int` is `Int`; `TargetReplicas` is only compared with `0`.
* Go `error` is `Option String`: `none` is `nil`, `some msg` is the error
  built by `fmt.Errorf` whose `Error()` text is `msg`.
* A method with a pointer receiver that assigns a field is a function from
  the receiver value before the call to the receiver value after it. The
  receiver is taken to be non-nil.
-/

namespace service

/-! ## Data model -/

/-- The type `ShareEnvOp` of the source: a named string type. -/
abbrev ShareEnvOp := String

/-- The constant `ShareEnvEnable ShareEnvOp = "enable"`. -/
def ShareEnvEnable : ShareEnvOp := "enable"

/-- The constant `ShareEnvDisable ShareEnvOp = "disable"`. -/
def ShareEnvDisable : ShareEnvOp := "disable"

/-- The struct `ShareEnvReadyChecks`, fields in declaration order. -/
structure ShareEnvReadyChecks where
  NamespaceHasIstioLabel : Bool
  VirtualServicesDeployed : Bool
  PodsHaveIstioProxy : Bool
  WorkloadsReady : Bool
  WorkloadsHaveK8sService : Bool
  deriving DecidableEq, Repr

/-- The struct `ShareEnvReady`. -/
structure ShareEnvReady where
  IsReady : Bool
  Checks : ShareEnvReadyChecks
  deriving DecidableEq, Repr

/-! ## `ShareEnvReady.CheckAndSetReady` -/

/-- The method `(s *ShareEnvReady) CheckAndSetReady(state ShareEnvOp)`:
the result is the value of `*s` after the call. The early `return` of the
`WorkloadsReady` gate is the first branch; the `switch` has the single case
`ShareEnvEnable` and a `default`. -/
def ShareEnvReady.CheckAndSetReady (s : ShareEnvReady) (state : ShareEnvOp) : ShareEnvReady :=
  if !s.Checks.WorkloadsReady then
    { s with IsReady := false }
  else if state = ShareEnvEnable then
    if !s.Checks.NamespaceHasIstioLabel || !s.Checks.VirtualServicesDeployed
        || !s.Checks.PodsHaveIstioProxy then
      { s with IsReady := false }
    else
      { s with IsReady := true }
  else
    if !s.Checks.NamespaceHasIstioLabel && !s.Checks.VirtualServicesDeployed
        && !s.Checks.PodsHaveIstioProxy then
      { s with IsReady := true }
    else
      { s with IsReady := false }

/-! ## Request validation -/

end service

namespace setting

/-- Modelled from the spec: the constant `setting.Deployment` of package
`pkg/setting`, which is not among the source files; the spec names the two
accepted workload kinds "Deployment" and "StatefulSet". -/
def Deployment : String := "Deployment"

/-- Modelled from the spec: the constant `setting.StatefulSet` of package
`pkg/setting`, which is not among the source files; the spec names the two
accepted workload kinds "Deployment" and "StatefulSet". -/
def StatefulSet : String := "StatefulSet"

end setting

namespace config

/-- Modelled from the spec: the type `config.CommonEnvCfgType`, declared in
package `pkg/microservice/aslan/config`, which is not among the source files.
`OpenAPIEnvCfgArgs.Validate` compares a value of this type with the untyped
constant `""`, so its underlying type is `string`. -/
abbrev CommonEnvCfgType := String

end config

namespace service

/-- A run-time panic of the Go program. -/
inductive Panic where
  | nilPointerDereference
  deriving DecidableEq, Repr

/-- The struct `OpenAPIScaleServiceReq`. -/
structure OpenAPIScaleServiceReq where
  ProjectKey : String
  EnvName : String
  WorkloadName : String
  WorkloadType : String
  TargetReplicas : Int
  deriving DecidableEq, Repr

/-- The method `(req *OpenAPIScaleServiceReq) Validate() error`. The `switch`
on `req.WorkloadType` has one case listing both constants, with an empty body,
and a `default` that returns the formatted error. -/
def OpenAPIScaleServiceReq.Validate (req : OpenAPIScaleServiceReq) : Option String :=
  if req.ProjectKey = "" then
    some "project_key is required"
  else if req.EnvName = "" then
    some "env_name is required"
  else if req.WorkloadName = "" then
    some "workload_name is required"
  else if req.WorkloadType = "" then
    some "workload_type is required"
  else if ¬ (req.WorkloadType = setting.Deployment ∨ req.WorkloadType = setting.StatefulSet) then
    some ("unsupported workload type: " ++ req.WorkloadType)
  else if req.TargetReplicas < 0 then
    some "target_replicas must be greater than or equal to 0"
  else
    none

/-- The struct `YamlServiceWithKV`. -/
structure YamlServiceWithKV where
  ServiceName : String
  deriving DecidableEq, Repr

/-- The struct `OpenAPIApplyYamlServiceReq`. `ServiceList` is a slice of
pointers: an entry is `none` when the pointer is nil. A nil slice and an empty
slice are both the empty list (the code only ranges over the slice). -/
structure OpenAPIApplyYamlServiceReq where
  EnvName : String
  ServiceList : List (Option YamlServiceWithKV)
  deriving DecidableEq, Repr

/-- The loop `for _, serviceDef := range req.ServiceList` of
`OpenAPIApplyYamlServiceReq.Validate` together with the final `return nil`:
reading `serviceDef.ServiceName` through a nil pointer panics. -/
def OpenAPIApplyYamlServiceReq.validateServices :
    List (Option YamlServiceWithKV) → Except Panic (Option String)
  | [] => .ok none
  | none :: _ => .error .nilPointerDereference
  | some serviceDef :: rest =>
    if serviceDef.ServiceName = "" then
      .ok (some "service_name is required for all services")
    else
      OpenAPIApplyYamlServiceReq.validateServices rest

/-- The method `(req *OpenAPIApplyYamlServiceReq) Validate() error`. -/
def OpenAPIApplyYamlServiceReq.Validate (req : OpenAPIApplyYamlServiceReq) :
    Except Panic (Option String) :=
  if req.EnvName = "" then
    .ok (some "env_name is required")
  else
    OpenAPIApplyYamlServiceReq.validateServices req.ServiceList

/-- The struct `OpenAPIDeleteYamlServiceFromEnvReq`. -/
structure OpenAPIDeleteYamlServiceFromEnvReq where
  EnvName : String
  ServiceNames : List String
  deriving DecidableEq, Repr

/-- The method `(req *OpenAPIDeleteYamlServiceFromEnvReq) Validate() error`. -/
def OpenAPIDeleteYamlServiceFromEnvReq.Validate (req : OpenAPIDeleteYamlServiceFromEnvReq) :
    Option String :=
  if req.EnvName = "" then
    some "env_name is required"
  else
    none

/-- The struct `OpenAPIEnvCfgArgs`, fields in declaration order. -/
structure OpenAPIEnvCfgArgs where
  Name : String
  EnvName : String
  ProductName : String
  ServiceName : String
  YamlData : String
  CommonEnvCfgType : config.CommonEnvCfgType
  AutoSync : Bool
  deriving DecidableEq, Repr

/-- The method `(req *OpenAPIEnvCfgArgs) Validate() error`. -/
def OpenAPIEnvCfgArgs.Validate (req : OpenAPIEnvCfgArgs) : Option String :=
  if req.Name = "" then
    some "name is required"
  else if req.EnvName = "" then
    some "env_name is required"
  else if req.ProductName = "" then
    some "project_name is required"
  else if req.CommonEnvCfgType = "" then
    some "common_env_cfg_type is required"
  else if req.YamlData = "" then
    some "yaml_data is required"
  else
    none

/-! ## `ProductRevision.GroupsUpdated` -/

/-- The struct `SvcRevision`, fields in declaration order. The element types
of `Containers` and `VariableKVs` (`commonmodels.Container`,
`commontypes.RenderVariableKV`) are declared outside the source files and are
type parameters. The field `Type` of the source is `Type_` here, `Type` being
reserved. Slices of pointers are lists of options. -/
structure SvcRevision (Container RenderVariableKV : Type) where
  ServiceName : String
  Type_ : String
  CurrentRevision : Int
  NextRevision : Int
  Updatable : Bool
  DeployStrategy : String
  Error : String
  Deleted : Bool
  New : Bool
  Containers : List (Option Container)
  UpdateServiceTmpl : Bool
  VariableYaml : String
  VariableKVs : List (Option RenderVariableKV)

/-- The struct `ProductRevision`, fields in declaration order.
`ServiceRevisions` is a slice of pointers: `none` is the nil slice, `some l` a
non-nil slice with the entries `l`, an entry being `none` when the pointer is
nil. -/
structure ProductRevision (Container RenderVariableKV : Type) where
  ID : String
  EnvName : String
  ProductName : String
  CurrentRevision : Int
  NextRevision : Int
  Updatable : Bool
  ServiceRevisions : Option (List (Option (SvcRevision Container RenderVariableKV)))
  IsPublic : Bool

/-- The loop `for _, serviceRev := range pr.ServiceRevisions` of
`GroupsUpdated` together with the statement after it, whose value is
`after`: the loop returns true at the first updatable entry, and reading
`serviceRev.Updatable` through a nil pointer panics. -/
def ProductRevision.rangeServiceRevisions {Container RenderVariableKV : Type} (after : Bool) :
    List (Option (SvcRevision Container RenderVariableKV)) → Except Panic Bool
  | [] => .ok after
  | none :: _ => .error .nilPointerDereference
  | some serviceRev :: rest =>
    if serviceRev.Updatable then
      .ok true
    else
      ProductRevision.rangeServiceRevisions after rest

/-- The method `(pr *ProductRevision) GroupsUpdated() bool`. -/
def ProductRevision.GroupsUpdated {Container RenderVariableKV : Type}
    (pr : ProductRevision Container RenderVariableKV) : Except Panic Bool :=
  match pr.ServiceRevisions with
  | none => .ok false
  | some revs =>
    if revs.length = 0 then
      .ok false
    else
      ProductRevision.rangeServiceRevisions pr.Updatable revs

/-! ## The validation rules as the specification words them -/

/-- The six rules of `OpenAPIScaleServiceReq.Validate` in the order the
specification fixes, each as the test that the rule is violated and the
message reported for it. -/
def OpenAPIScaleServiceReq.orderedRules :
    List ((OpenAPIScaleServiceReq → Bool) × (OpenAPIScaleServiceReq → String)) :=
  [ (fun req => decide (req.ProjectKey = ""), fun _ => "project_key is required"),
    (fun req => decide (req.EnvName = ""), fun _ => "env_name is required"),
    (fun req => decide (req.WorkloadName = ""), fun _ => "workload_name is required"),
    (fun req => decide (req.WorkloadType = ""), fun _ => "workload_type is required"),
    (fun req => decide (req.WorkloadType ≠ setting.Deployment ∧
        req.WorkloadType ≠ setting.StatefulSet),
      fun req => "unsupported workload type: " ++ req.WorkloadType),
    (fun req => decide (req.TargetReplicas < 0),
      fun _ => "target_replicas must be greater than or equal to 0") ]

/-- The message of the first violated rule of an ordered rule list, `none`
when no rule is violated. -/
def firstViolation {α : Type} (rules : List ((α → Bool) × (α → String))) (req : α) :
    Option String :=
  match rules with
  | [] => none
  | rule :: rest => if rule.1 req then some (rule.2 req) else firstViolation rest req

/-- The required fields of `OpenAPIEnvCfgArgs` in the order `Validate` checks
them, each with the JSON key of its struct tag. -/
def OpenAPIEnvCfgArgs.requiredFieldKeys : List (String × (OpenAPIEnvCfgArgs → String)) :=
  [ ("name", fun req => req.Name),
    ("env_name", fun req => req.EnvName),
    ("product_name", fun req => req.ProductName),
    ("common_env_cfg_type", fun req => req.CommonEnvCfgType),
    ("yaml_data", fun req => req.YamlData) ]

/-- The message the specification expects from `OpenAPIEnvCfgArgs.Validate`:
the JSON key of the first empty required field followed by " is required",
`none` when no required field is empty. -/
def OpenAPIEnvCfgArgs.expectedError (req : OpenAPIEnvCfgArgs) : Option String :=
  (OpenAPIEnvCfgArgs.requiredFieldKeys.find? (fun field => decide (field.2 req = ""))).map
    (fun field => field.1 ++ " is required")

end service

/-! ## The client of the remote service (`pkg/shared/client/aslan/environment.go`)

A call of the transport reads and changes the world outside the program; the
state of that world is threaded through every function as a value of `σ`. -/

namespace types

/-- Modelled from the spec: the struct `types.StartDevmodeInfo` of package
`pkg/types`, which is not among the source files; `PatchWorkload` fills its
field `DevImage` with the dev-mode image and nothing else. -/
structure StartDevmodeInfo where
  DevImage : String
  deriving DecidableEq, Repr

end types

namespace httpclient

/-- Modelled from the spec: the request options of package
`pkg/tool/httpclient`, which is not among the source files, as far as the
wrappers use them. `SetResult` carries the content its pointer refers to when
the call is made; `ρ` is the type of that content. -/
inductive RequestFunc (ρ : Type) where
  | SetQueryParam (key value : String)
  | SetQueryParams (params : List (String × String))
  | SetBody (body : types.StartDevmodeInfo)
  | SetResult (target : ρ)

/-- Modelled from the spec: what one call of `Get` or `Post` gives back: the
response, the error (`none` is nil) and, in `stored`, the value the call wrote
through the `SetResult` pointer (`none` when it wrote nothing). -/
structure Reply (R ε ρ : Type) where
  resp : R
  err : Option ε
  stored : Option ρ

/-- Modelled from the spec: the shared HTTP client `httpclient.Client`, which
is not among the source files. `Get` and `Post` are arbitrary functions of the
URL, the options and the state of the world, returning the reply and the next
state of the world. `R` is the type of responses and `ε` the type of non-nil
errors. -/
structure Client (σ R ε : Type) where
  Get : {ρ : Type} → String → List (RequestFunc ρ) → σ → Reply R ε ρ × σ
  Post : {ρ : Type} → String → List (RequestFunc ρ) → σ → Reply R ε ρ × σ

end httpclient

namespace aslan

/-- Modelled from the spec: the struct `Client` of package
`pkg/shared/client/aslan`, declared outside the source files; the wrappers call
`c.Get` and `c.Post` of the HTTP client it embeds. -/
structure Client (σ R ε : Type) extends httpclient.Client σ R ε

/-- The method `(c *Client) ListEnvironments(projectName string)
([]*Environment, error)`. A slice is `none` when nil; `make([]*Environment, 0)`
is `some []`. The result is the returned pair and the next state of the
world. -/
def Client.ListEnvironments {σ R ε Environment : Type} (c : Client σ R ε)
    (projectName : String) (w : σ) :
    (Option (List (Option Environment)) × Option ε) × σ :=
  let url := "/environment/environments"
  let res : Option (List (Option Environment)) := some []
  match c.Get url [.SetQueryParam "projectName" projectName, .SetResult res] w with
  | (reply, w') =>
    let res := reply.stored.getD res
    match reply.err with
    | some err => ((none, some err), w')
    | none => ((res, none), w')

/-- The method `(c *Client) GetEnvironment(envName, projectName string)
(*Environment, error)`. The returned pointer is `none` when nil;
`&Environment{}` points to the zero value `default`. -/
def Client.GetEnvironment {σ R ε Environment : Type} [Inhabited Environment] (c : Client σ R ε)
    (envName projectName : String) (w : σ) : (Option Environment × Option ε) × σ :=
  let url := "/environment/environments/" ++ envName
  let res : Environment := default
  match c.Get url [.SetQueryParam "projectName" projectName, .SetResult res] w with
  | (reply, w') =>
    let res := reply.stored.getD res
    match reply.err with
    | some err => ((none, some err), w')
    | none => ((some res, none), w')

/-- The method `(c *Client) GetServiceDetail(projectName, serviceName, envName
string) (*ServiceDetail, error)`. -/
def Client.GetServiceDetail {σ R ε ServiceDetail : Type} [Inhabited ServiceDetail]
    (c : Client σ R ε) (projectName serviceName envName : String) (w : σ) :
    (Option ServiceDetail × Option ε) × σ :=
  let url := "/environment/environments/" ++ envName ++ "/services/" ++ serviceName
  let res : ServiceDetail := default
  let req : List (String × String) := [("projectName", projectName)]
  match c.Get url [.SetQueryParams req, .SetResult res] w with
  | (reply, w') =>
    let res := reply.stored.getD res
    match reply.err with
    | some err => ((none, some err), w')
    | none => ((some res, none), w')

/-- The method `(c *Client) PatchWorkload(projectName, envName, serviceName,
devImage string) (*types.WorkloadInfo, error)`: the pointer `res` is returned
whether or not the call failed. -/
def Client.PatchWorkload {σ R ε WorkloadInfo : Type} [Inhabited WorkloadInfo] (c : Client σ R ε)
    (projectName envName serviceName devImage : String) (w : σ) :
    (Option WorkloadInfo × Option ε) × σ :=
  let res : WorkloadInfo := default
  let body : types.StartDevmodeInfo := { DevImage := devImage }
  let url := "/environment/environments/" ++ envName ++ "/services/" ++ serviceName ++
    "/devmode/patch?projectName=" ++ projectName
  match c.Post url [.SetBody body, .SetResult res] w with
  | (reply, w') => ((some (reply.stored.getD res), reply.err), w')

/-- The method `(c *Client) RecoverWorkload(projectName, envName, serviceName
string) error`: the call has no options, so no result pointer. -/
def Client.RecoverWorkload {σ R ε : Type} (c : Client σ R ε)
    (projectName envName serviceName : String) (w : σ) : Option ε × σ :=
  let url := "/environment/environments/" ++ envName ++ "/services/" ++ serviceName ++
    "/devmode/recover?projectName=" ++ projectName
  match c.Post url ([] : List (httpclient.RequestFunc Unit)) w with
  | (reply, w') => (reply.err, w')

/-- A transport for examples: the state of the world is the number of calls
made so far, every call adds one to it, stores nothing and replies with the
error `err`. -/
def countingClient (err : Option String) : Client Nat Unit String where
  Get := fun _ _ n => (⟨(), err, none⟩, n + 1)
  Post := fun _ _ n => (⟨(), err, none⟩, n + 1)

end aslan

namespace service

/-! ## Theorems about `CheckAndSetReady` -/

/-- C1: when `Checks.WorkloadsReady` is false, `CheckAndSetReady` leaves
`IsReady = false`, for every mode string, every value of the other four flags
and every prior value of `IsReady`. -/
theorem CheckAndSetReady_workloads_gate (s : ShareEnvReady) (state : ShareEnvOp)
    (h : s.Checks.WorkloadsReady = false) :
    (s.CheckAndSetReady state).IsReady = false := by
  simp [ShareEnvReady.CheckAndSetReady, h]

/-- Scenario A: all five checks false, mode Enable, gives `IsReady = false`
(here starting from `IsReady = true`). -/
theorem CheckAndSetReady_workloads_gate_witness :
    (⟨true, ⟨false, false, false, false, false⟩⟩ : ShareEnvReady).Checks.WorkloadsReady = false ∧
    (ShareEnvReady.CheckAndSetReady ⟨true, ⟨false, false, false, false, false⟩⟩
      ShareEnvEnable).IsReady = false :=
  ⟨rfl, CheckAndSetReady_workloads_gate ⟨true, ⟨false, false, false, false, false⟩⟩
    ShareEnvEnable rfl⟩

/-- C2: with `Checks.WorkloadsReady = true`, after `CheckAndSetReady(ShareEnvEnable)`
the field `IsReady` equals `NamespaceHasIstioLabel AND VirtualServicesDeployed AND
PodsHaveIstioProxy`. -/
theorem CheckAndSetReady_enable (s : ShareEnvReady) (h : s.Checks.WorkloadsReady = true) :
    (s.CheckAndSetReady ShareEnvEnable).IsReady =
      (s.Checks.NamespaceHasIstioLabel && s.Checks.VirtualServicesDeployed
        && s.Checks.PodsHaveIstioProxy) := by
  obtain ⟨r, ⟨a, b, c, w, k⟩⟩ := s
  simp only at h
  subst h
  cases a <;> cases b <;> cases c <;> simp [ShareEnvReady.CheckAndSetReady]

/-- Scenario B: label, rules, sidecar and WorkloadsReady true,
WorkloadsHaveK8sService false, mode Enable, gives `IsReady = true`. -/
theorem CheckAndSetReady_enable_witness :
    (⟨false, ⟨true, true, true, true, false⟩⟩ : ShareEnvReady).Checks.WorkloadsReady = true ∧
    (ShareEnvReady.CheckAndSetReady ⟨false, ⟨true, true, true, true, false⟩⟩
      ShareEnvEnable).IsReady = true :=
  ⟨rfl, CheckAndSetReady_enable ⟨false, ⟨true, true, true, true, false⟩⟩ rfl⟩

/-- C3: with `Checks.WorkloadsReady = true`, after `CheckAndSetReady(ShareEnvDisable)`
the field `IsReady` equals `NOT NamespaceHasIstioLabel AND NOT VirtualServicesDeployed
AND NOT PodsHaveIstioProxy`. -/
theorem CheckAndSetReady_disable (s : ShareEnvReady) (h : s.Checks.WorkloadsReady = true) :
    (s.CheckAndSetReady ShareEnvDisable).IsReady =
      (!s.Checks.NamespaceHasIstioLabel && !s.Checks.VirtualServicesDeployed
        && !s.Checks.PodsHaveIstioProxy) := by
  obtain ⟨r, ⟨a, b, c, w, k⟩⟩ := s
  simp only at h
  subst h
  have hne : ShareEnvDisable ≠ ShareEnvEnable := by decide
  cases a <;> cases b <;> cases c <;> simp [ShareEnvReady.CheckAndSetReady, hne]

/-- WorkloadsReady true, label true, rules and sidecar false, mode Disable,
gives `IsReady = false` (a leftover label). -/
theorem CheckAndSetReady_disable_witness :
    (⟨true, ⟨true, false, false, true, false⟩⟩ : ShareEnvReady).Checks.WorkloadsReady = true ∧
    (ShareEnvReady.CheckAndSetReady ⟨true, ⟨true, false, false, true, false⟩⟩
      ShareEnvDisable).IsReady = false :=
  ⟨rfl, CheckAndSetReady_disable ⟨true, ⟨true, false, false, true, false⟩⟩ rfl⟩

/-- C4: every mode string other than "enable" (the empty string and any
unrecognised value included) makes `CheckAndSetReady` produce exactly the
`ShareEnvReady` that `CheckAndSetReady(ShareEnvDisable)` produces; the method
has no error result, so no mode yields an error. -/
theorem CheckAndSetReady_unknown_mode_eq_disable (s : ShareEnvReady) (m : ShareEnvOp)
    (h : m ≠ "enable") :
    s.CheckAndSetReady m = s.CheckAndSetReady ShareEnvDisable := by
  have hm : m ≠ ShareEnvEnable := h
  have hd : ShareEnvDisable ≠ ShareEnvEnable := by decide
  simp only [ShareEnvReady.CheckAndSetReady, if_neg hm, if_neg hd]

/-- The empty mode string behaves as Disable on a clean snapshot. -/
theorem CheckAndSetReady_unknown_mode_eq_disable_witness :
    ("" : ShareEnvOp) ≠ "enable" ∧
    ShareEnvReady.CheckAndSetReady ⟨false, ⟨false, false, false, true, true⟩⟩ "" =
      ShareEnvReady.CheckAndSetReady ⟨false, ⟨false, false, false, true, true⟩⟩
        ShareEnvDisable :=
  ⟨by decide, CheckAndSetReady_unknown_mode_eq_disable
    ⟨false, ⟨false, false, false, true, true⟩⟩ "" (by decide)⟩

/-- C5: two `ShareEnvReady` values that differ only in
`Checks.WorkloadsHaveK8sService` get the same `IsReady` from
`CheckAndSetReady(ShareEnvEnable)`. -/
theorem CheckAndSetReady_enable_ignores_k8s_service (s₁ s₂ : ShareEnvReady)
    (hr : s₁.IsReady = s₂.IsReady)
    (hl : s₁.Checks.NamespaceHasIstioLabel = s₂.Checks.NamespaceHasIstioLabel)
    (hv : s₁.Checks.VirtualServicesDeployed = s₂.Checks.VirtualServicesDeployed)
    (hp : s₁.Checks.PodsHaveIstioProxy = s₂.Checks.PodsHaveIstioProxy)
    (hw : s₁.Checks.WorkloadsReady = s₂.Checks.WorkloadsReady) :
    (s₁.CheckAndSetReady ShareEnvEnable).IsReady =
      (s₂.CheckAndSetReady ShareEnvEnable).IsReady := by
  obtain ⟨r₁, ⟨a₁, b₁, c₁, w₁, k₁⟩⟩ := s₁
  obtain ⟨r₂, ⟨a₂, b₂, c₂, w₂, k₂⟩⟩ := s₂
  simp only at hr hl hv hp hw
  subst hr hl hv hp hw
  cases a₁ <;> cases b₁ <;> cases c₁ <;> cases w₁ <;> simp [ShareEnvReady.CheckAndSetReady]

/-- Two ready-to-enable snapshots that differ only in the fifth flag. -/
theorem CheckAndSetReady_enable_ignores_k8s_service_witness :
    (ShareEnvReady.CheckAndSetReady ⟨false, ⟨true, true, true, true, false⟩⟩
      ShareEnvEnable).IsReady =
    (ShareEnvReady.CheckAndSetReady ⟨false, ⟨true, true, true, true, true⟩⟩
      ShareEnvEnable).IsReady :=
  CheckAndSetReady_enable_ignores_k8s_service
    ⟨false, ⟨true, true, true, true, false⟩⟩ ⟨false, ⟨true, true, true, true, true⟩⟩
    rfl rfl rfl rfl rfl

/-- C6: `CheckAndSetReady` leaves all five fields of `Checks` as they were, for
every value and every mode; the result is the input with only `IsReady`
replaced. -/
theorem CheckAndSetReady_frame (s : ShareEnvReady) (m : ShareEnvOp) :
    (s.CheckAndSetReady m).Checks.NamespaceHasIstioLabel = s.Checks.NamespaceHasIstioLabel ∧
    (s.CheckAndSetReady m).Checks.VirtualServicesDeployed = s.Checks.VirtualServicesDeployed ∧
    (s.CheckAndSetReady m).Checks.PodsHaveIstioProxy = s.Checks.PodsHaveIstioProxy ∧
    (s.CheckAndSetReady m).Checks.WorkloadsReady = s.Checks.WorkloadsReady ∧
    (s.CheckAndSetReady m).Checks.WorkloadsHaveK8sService = s.Checks.WorkloadsHaveK8sService ∧
    s.CheckAndSetReady m = { s with IsReady := (s.CheckAndSetReady m).IsReady } := by
  have hc : (s.CheckAndSetReady m).Checks = s.Checks := by
    unfold ShareEnvReady.CheckAndSetReady
    repeat' split
    all_goals rfl
  refine ⟨by rw [hc], by rw [hc], by rw [hc], by rw [hc], by rw [hc], ?_⟩
  cases hs : s.CheckAndSetReady m with
  | mk r c =>
    rw [hs] at hc
    simp only at hc
    subst hc
    rfl

/-- C7: (1) the `IsReady` value after `CheckAndSetReady(m)` does not depend on
the value `IsReady` had before the call, and (2) calling `CheckAndSetReady(m)`
twice in a row yields the same `ShareEnvReady` as calling it once. -/
theorem CheckAndSetReady_stateless_idempotent (s : ShareEnvReady) (m : ShareEnvOp) :
    (∀ b : Bool, (ShareEnvReady.CheckAndSetReady { s with IsReady := b } m).IsReady =
      (s.CheckAndSetReady m).IsReady) ∧
    (s.CheckAndSetReady m).CheckAndSetReady m = s.CheckAndSetReady m := by
  obtain ⟨r, ⟨a, b, c, w, k⟩⟩ := s
  constructor
  · intro r'
    unfold ShareEnvReady.CheckAndSetReady
    repeat' split
    all_goals rfl
  · by_cases hm : m = ShareEnvEnable
    · cases a <;> cases b <;> cases c <;> cases w <;>
        simp [ShareEnvReady.CheckAndSetReady, hm]
    · cases a <;> cases b <;> cases c <;> cases w <;>
        simp [ShareEnvReady.CheckAndSetReady, hm]

/-! ## Theorems about the request validators -/

/-- C8: `OpenAPIScaleServiceReq.Validate` returns nil if and only if
`ProjectKey`, `EnvName` and `WorkloadName` are all non-empty, `WorkloadType` is
one of the two constants `setting.Deployment`, `setting.StatefulSet`, and
`TargetReplicas >= 0`. -/
theorem OpenAPIScaleServiceReq_Validate_eq_nil_iff (req : OpenAPIScaleServiceReq) :
    req.Validate = none ↔
      req.ProjectKey ≠ "" ∧ req.EnvName ≠ "" ∧ req.WorkloadName ≠ "" ∧
      (req.WorkloadType = setting.Deployment ∨ req.WorkloadType = setting.StatefulSet) ∧
      0 ≤ req.TargetReplicas := by
  have hD : setting.Deployment ≠ "" := by decide
  have hS : setting.StatefulSet ≠ "" := by decide
  unfold OpenAPIScaleServiceReq.Validate
  split_ifs with h1 h2 h3 h4 h5 h6
  · simp [h1]
  · simp [h2]
  · simp [h3]
  · have hne : ¬ (req.WorkloadType = setting.Deployment ∨
        req.WorkloadType = setting.StatefulSet) := by
      rintro (h | h)
      · exact hD (h ▸ h4)
      · exact hS (h ▸ h4)
    simp [hne]
  · have : ¬ (0 ≤ req.TargetReplicas) := not_le.mpr h6
    simp [this]
  · simp [h1, h2, h3, h5, not_lt.mp h6]
  · simp [h5]

/-- C9: with non-empty `ProjectKey`, `EnvName` and `WorkloadName` and a
non-empty `WorkloadType` that is neither `setting.Deployment` nor
`setting.StatefulSet`, `Validate` returns the error whose message is
"unsupported workload type: " followed by the workload type, whatever
`TargetReplicas` is. -/
theorem OpenAPIScaleServiceReq_Validate_unsupported_type (req : OpenAPIScaleServiceReq)
    (hp : req.ProjectKey ≠ "") (he : req.EnvName ≠ "") (hn : req.WorkloadName ≠ "")
    (ht : req.WorkloadType ≠ "") (hd : req.WorkloadType ≠ setting.Deployment)
    (hs : req.WorkloadType ≠ setting.StatefulSet) :
    req.Validate = some ("unsupported workload type: " ++ req.WorkloadType) := by
  have hne : ¬ (req.WorkloadType = setting.Deployment ∨
      req.WorkloadType = setting.StatefulSet) := by
    rintro (h | h)
    · exact hd h
    · exact hs h
  simp only [OpenAPIScaleServiceReq.Validate, if_neg hp, if_neg he, if_neg hn, if_neg ht,
    if_pos hne]

/-- The validation scenario of the spec: workload type "DaemonSet" with three
target replicas yields "unsupported workload type: DaemonSet". -/
theorem OpenAPIScaleServiceReq_Validate_unsupported_type_witness :
    OpenAPIScaleServiceReq.Validate ⟨"p", "e", "w", "DaemonSet", 3⟩ =
      some "unsupported workload type: DaemonSet" :=
  OpenAPIScaleServiceReq_Validate_unsupported_type ⟨"p", "e", "w", "DaemonSet", 3⟩
    (by decide) (by decide) (by decide) (by decide) (by decide) (by decide)

/-- C10, as stated, fails for `OpenAPIEnvCfgArgs`: on a request whose `EnvName`
is empty and whose `Name` is empty too, `Validate` returns "name is required",
which is not the error about the env name (nor the one about the project
name). -/
theorem OpenAPIEnvCfgArgs_Validate_name_checked_before_env_name :
    (⟨"", "", "proj", "svc", "a: b", "ConfigMap", false⟩ : OpenAPIEnvCfgArgs).EnvName = "" ∧
    OpenAPIEnvCfgArgs.Validate ⟨"", "", "proj", "svc", "a: b", "ConfigMap", false⟩ =
      some "name is required" ∧
    OpenAPIEnvCfgArgs.Validate ⟨"", "", "proj", "svc", "a: b", "ConfigMap", false⟩ ≠
      some "env_name is required" ∧
    OpenAPIEnvCfgArgs.Validate ⟨"", "", "proj", "svc", "a: b", "ConfigMap", false⟩ ≠
      some "project_name is required" := by
  decide

/-- C10, amended: in `OpenAPIScaleServiceReq`, `OpenAPIApplyYamlServiceReq` and
`OpenAPIDeleteYamlServiceFromEnvReq` the project key and env name are checked
first, so an empty one of them decides the error whatever the type-specific
fields hold (project key before env name); in `OpenAPIEnvCfgArgs` the field
`Name` is checked first and, once `Name` is non-empty, an empty `EnvName` or
`ProductName` decides the error (env name before project name) whatever the
remaining fields hold. -/
theorem Validate_project_env_name_order
    (a : OpenAPIScaleServiceReq) (b : OpenAPIApplyYamlServiceReq)
    (c : OpenAPIDeleteYamlServiceFromEnvReq) (d : OpenAPIEnvCfgArgs) :
    (a.ProjectKey = "" → a.Validate = some "project_key is required") ∧
    (a.ProjectKey ≠ "" → a.EnvName = "" → a.Validate = some "env_name is required") ∧
    (b.EnvName = "" → b.Validate = .ok (some "env_name is required")) ∧
    (c.EnvName = "" → c.Validate = some "env_name is required") ∧
    (d.Name = "" → d.Validate = some "name is required") ∧
    (d.Name ≠ "" → d.EnvName = "" → d.Validate = some "env_name is required") ∧
    (d.Name ≠ "" → d.EnvName ≠ "" → d.ProductName = "" →
      d.Validate = some "project_name is required") := by
  refine ⟨?_, ?_, ?_, ?_, ?_, ?_, ?_⟩
  · intro h
    simp only [OpenAPIScaleServiceReq.Validate, if_pos h]
  · intro h h'
    simp only [OpenAPIScaleServiceReq.Validate, if_neg h, if_pos h']
  · intro h
    simp only [OpenAPIApplyYamlServiceReq.Validate, if_pos h]
  · intro h
    simp only [OpenAPIDeleteYamlServiceFromEnvReq.Validate, if_pos h]
  · intro h
    simp only [OpenAPIEnvCfgArgs.Validate, if_pos h]
  · intro h h'
    simp only [OpenAPIEnvCfgArgs.Validate, if_neg h, if_pos h']
  · intro h h' h''
    simp only [OpenAPIEnvCfgArgs.Validate, if_neg h, if_neg h', if_pos h'']

/-- Requests with an empty env name and further missing or invalid fields: a
scale request with no workload name and an unsupported type, an apply request
with a nil entry and an empty service name, a delete request with no service
names, and a configuration request with a name but no type and no data. -/
theorem Validate_project_env_name_order_witness :
    OpenAPIScaleServiceReq.Validate ⟨"proj", "", "", "DaemonSet", -1⟩ =
      some "env_name is required" ∧
    OpenAPIApplyYamlServiceReq.Validate ⟨"", [none, some ⟨""⟩]⟩ =
      .ok (some "env_name is required") ∧
    OpenAPIDeleteYamlServiceFromEnvReq.Validate ⟨"", []⟩ = some "env_name is required" ∧
    OpenAPIEnvCfgArgs.Validate ⟨"cfg", "", "", "", "", "", false⟩ =
      some "env_name is required" :=
  have h := Validate_project_env_name_order
    ⟨"proj", "", "", "DaemonSet", -1⟩ ⟨"", [none, some ⟨""⟩]⟩ ⟨"", []⟩
    ⟨"cfg", "", "", "", "", "", false⟩
  ⟨h.2.1 (by decide) rfl, h.2.2.1 rfl, h.2.2.2.1 rfl, h.2.2.2.2.2.1 (by decide) rfl⟩

end service

namespace aslan

/-! ## Theorems about the client wrappers -/

/-- C11: each of `ListEnvironments`, `GetEnvironment`, `GetServiceDetail`,
`PatchWorkload` and `RecoverWorkload` returns as its error exactly the error of
its transport call (the same non-nil error when there is one, nil when it is
nil), and leaves the world in the state that this one transport call leaves it
in, for an arbitrary transport. -/
theorem wrappers_return_transport_error {σ R ε Environment ServiceDetail WorkloadInfo : Type}
    [Inhabited Environment] [Inhabited ServiceDetail] [Inhabited WorkloadInfo]
    (c : Client σ R ε) (projectName envName serviceName devImage : String) (w : σ) :
    ((c.ListEnvironments projectName w :
        (Option (List (Option Environment)) × Option ε) × σ).1.2 =
      (c.Get "/environment/environments"
        [.SetQueryParam "projectName" projectName,
          .SetResult (some [] : Option (List (Option Environment)))] w).1.err ∧
     (c.ListEnvironments projectName w :
        (Option (List (Option Environment)) × Option ε) × σ).2 =
      (c.Get "/environment/environments"
        [.SetQueryParam "projectName" projectName,
          .SetResult (some [] : Option (List (Option Environment)))] w).2) ∧
    ((c.GetEnvironment envName projectName w : (Option Environment × Option ε) × σ).1.2 =
      (c.Get ("/environment/environments/" ++ envName)
        [.SetQueryParam "projectName" projectName,
          .SetResult (default : Environment)] w).1.err ∧
     (c.GetEnvironment envName projectName w : (Option Environment × Option ε) × σ).2 =
      (c.Get ("/environment/environments/" ++ envName)
        [.SetQueryParam "projectName" projectName,
          .SetResult (default : Environment)] w).2) ∧
    ((c.GetServiceDetail projectName serviceName envName w :
        (Option ServiceDetail × Option ε) × σ).1.2 =
      (c.Get ("/environment/environments/" ++ envName ++ "/services/" ++ serviceName)
        [.SetQueryParams [("projectName", projectName)],
          .SetResult (default : ServiceDetail)] w).1.err ∧
     (c.GetServiceDetail projectName serviceName envName w :
        (Option ServiceDetail × Option ε) × σ).2 =
      (c.Get ("/environment/environments/" ++ envName ++ "/services/" ++ serviceName)
        [.SetQueryParams [("projectName", projectName)],
          .SetResult (default : ServiceDetail)] w).2) ∧
    ((c.PatchWorkload projectName envName serviceName devImage w :
        (Option WorkloadInfo × Option ε) × σ).1.2 =
      (c.Post ("/environment/environments/" ++ envName ++ "/services/" ++ serviceName ++
          "/devmode/patch?projectName=" ++ projectName)
        [.SetBody ⟨devImage⟩, .SetResult (default : WorkloadInfo)] w).1.err ∧
     (c.PatchWorkload projectName envName serviceName devImage w :
        (Option WorkloadInfo × Option ε) × σ).2 =
      (c.Post ("/environment/environments/" ++ envName ++ "/services/" ++ serviceName ++
          "/devmode/patch?projectName=" ++ projectName)
        [.SetBody ⟨devImage⟩, .SetResult (default : WorkloadInfo)] w).2) ∧
    ((c.RecoverWorkload projectName envName serviceName w).1 =
      (c.Post ("/environment/environments/" ++ envName ++ "/services/" ++ serviceName ++
          "/devmode/recover?projectName=" ++ projectName)
        ([] : List (httpclient.RequestFunc Unit)) w).1.err ∧
     (c.RecoverWorkload projectName envName serviceName w).2 =
      (c.Post ("/environment/environments/" ++ envName ++ "/services/" ++ serviceName ++
          "/devmode/recover?projectName=" ++ projectName)
        ([] : List (httpclient.RequestFunc Unit)) w).2) := by
  refine ⟨?_, ?_, ?_, ?_, ?_⟩
  · simp only [Client.ListEnvironments]
    split <;> rename_i h <;> simp [h]
  · simp only [Client.GetEnvironment]
    split <;> rename_i h <;> simp [h]
  · simp only [Client.GetServiceDetail]
    split <;> rename_i h <;> simp [h]
  · exact ⟨rfl, rfl⟩
  · exact ⟨rfl, rfl⟩

/-- With the counting transport that always fails with "connection refused",
`ListEnvironments` and `PatchWorkload` return that very error after one call
(the count goes from 0 to 1); with the counting transport that never fails,
`RecoverWorkload` returns nil after one call. -/
theorem wrappers_return_transport_error_witness :
    (((countingClient (some "connection refused")).ListEnvironments "proj" 0 :
        (Option (List (Option String)) × Option String) × Nat).1.2 = some "connection refused" ∧
     ((countingClient (some "connection refused")).ListEnvironments "proj" 0 :
        (Option (List (Option String)) × Option String) × Nat).2 = 1) ∧
    (((countingClient (some "connection refused")).PatchWorkload "proj" "dev" "svc" "img:1" 0 :
        (Option String × Option String) × Nat).1.2 = some "connection refused" ∧
     ((countingClient (some "connection refused")).PatchWorkload "proj" "dev" "svc" "img:1" 0 :
        (Option String × Option String) × Nat).2 = 1) ∧
    ((countingClient none).RecoverWorkload "proj" "dev" "svc" 0).1 = none ∧
    ((countingClient none).RecoverWorkload "proj" "dev" "svc" 0).2 = 1 :=
  ⟨(@wrappers_return_transport_error Nat Unit String String String String _ _ _
      (countingClient (some "connection refused")) "proj" "dev" "svc" "img:1" 0).1,
   (@wrappers_return_transport_error Nat Unit String String String String _ _ _
      (countingClient (some "connection refused")) "proj" "dev" "svc" "img:1" 0).2.2.2.1,
   (@wrappers_return_transport_error Nat Unit String String String String _ _ _
      (countingClient none) "proj" "dev" "svc" "img:1" 0).2.2.2.2⟩

end aslan

namespace service

/-! ## Further theorems about `CheckAndSetReady` and the validators -/

/-- C12, as stated, fails: with the snapshot {true,false,false,false,true}
read in the field order of `ShareEnvReadyChecks` the flag `WorkloadsReady` is
false, and `CheckAndSetReady(ShareEnvDisable)` on a fresh value leaves
`IsReady = false`, not true. -/
theorem CheckAndSetReady_scenarioD_field_order_not_ready :
    (⟨false, ⟨true, false, false, false, true⟩⟩ : ShareEnvReady).Checks.WorkloadsReady = false ∧
    (ShareEnvReady.CheckAndSetReady ⟨false, ⟨true, false, false, false, true⟩⟩
      ShareEnvDisable).IsReady ≠ true := by
  decide

/-- C12, amended: with the snapshot {true,false,false,false,true} read in the
field order of `ShareEnvReadyChecks` (label true, rules false, sidecar false,
WorkloadsReady false, service true), `CheckAndSetReady(ShareEnvDisable)` sets
`IsReady = false`; it sets `IsReady = true` when the five values are read with
`WorkloadsReady` first (WorkloadsReady true, label, rules and sidecar false,
service true). Both hold for every prior value of `IsReady`. -/
theorem CheckAndSetReady_scenarioD (r : Bool) :
    (ShareEnvReady.CheckAndSetReady ⟨r, ⟨true, false, false, false, true⟩⟩
      ShareEnvDisable).IsReady = false ∧
    (ShareEnvReady.CheckAndSetReady ⟨r, ⟨false, false, false, true, true⟩⟩
      ShareEnvDisable).IsReady = true := by
  cases r <;> decide

/-- C13: `OpenAPIScaleServiceReq.Validate` returns the message of the first
violated rule in the fixed order project key, env name, workload name, empty
workload type, unsupported workload type, negative target replicas, and nil
when no rule is violated; a later violation is never reported. -/
theorem OpenAPIScaleServiceReq_Validate_eq_firstViolation (req : OpenAPIScaleServiceReq) :
    req.Validate = firstViolation OpenAPIScaleServiceReq.orderedRules req := by
  simp only [OpenAPIScaleServiceReq.Validate, OpenAPIScaleServiceReq.orderedRules,
    firstViolation, decide_eq_true_eq, not_or, ne_eq]

/-- C14 fails on the code at a request whose first empty required field is
`ProductName`: `Validate` returns "project_name is required", while the JSON
key of `ProductName` is `product_name`, so the expected message is
"product_name is required". -/
theorem OpenAPIEnvCfgArgs_Validate_product_name_message :
    OpenAPIEnvCfgArgs.Validate ⟨"cfg", "dev", "", "svc", "a: b", "ConfigMap", false⟩ =
      some "project_name is required" ∧
    OpenAPIEnvCfgArgs.expectedError ⟨"cfg", "dev", "", "svc", "a: b", "ConfigMap", false⟩ =
      some "product_name is required" ∧
    OpenAPIEnvCfgArgs.Validate ⟨"cfg", "dev", "", "svc", "a: b", "ConfigMap", false⟩ ≠
      OpenAPIEnvCfgArgs.expectedError ⟨"cfg", "dev", "", "svc", "a: b", "ConfigMap", false⟩ := by
  decide

/-- Over a list with no nil entry the service loop returns, and it returns
nil exactly when no entry has an empty service name. -/
theorem validateServices_eq_nil_iff (l : List (Option YamlServiceWithKV))
    (hl : ∀ x ∈ l, x ≠ none) :
    OpenAPIApplyYamlServiceReq.validateServices l = .ok none ↔
      ∀ d, some d ∈ l → d.ServiceName ≠ "" := by
  induction l with
  | nil => simp [OpenAPIApplyYamlServiceReq.validateServices]
  | cons x rest ih =>
    have hrest : ∀ y ∈ rest, y ≠ none := fun y hy => hl y (List.mem_cons_of_mem _ hy)
    cases x with
    | none => exact absurd rfl (hl none (List.mem_cons_self _ _))
    | some d =>
      by_cases hd : d.ServiceName = ""
      · simp only [OpenAPIApplyYamlServiceReq.validateServices, if_pos hd]
        constructor
        · intro h
          cases h
        · intro h
          exact absurd hd (h d (List.mem_cons_self _ _))
      · simp only [OpenAPIApplyYamlServiceReq.validateServices, if_neg hd, ih hrest]
        constructor
        · intro h e he
          rcases List.mem_cons.mp he with heq | hmem
          · cases heq
            exact hd
          · exact h e hmem
        · intro h e he
          exact h e (List.mem_cons_of_mem _ he)

/-- Over a list with no nil entry that holds an entry with an empty service
name, the service loop returns the error about service names. -/
theorem validateServices_eq_error (l : List (Option YamlServiceWithKV))
    (hl : ∀ x ∈ l, x ≠ none) (h : ∃ d, some d ∈ l ∧ d.ServiceName = "") :
    OpenAPIApplyYamlServiceReq.validateServices l =
      .ok (some "service_name is required for all services") := by
  induction l with
  | nil =>
    obtain ⟨d, hd, _⟩ := h
    cases hd
  | cons x rest ih =>
    have hrest : ∀ y ∈ rest, y ≠ none := fun y hy => hl y (List.mem_cons_of_mem _ hy)
    cases x with
    | none => exact absurd rfl (hl none (List.mem_cons_self _ _))
    | some d =>
      by_cases hd : d.ServiceName = ""
      · simp only [OpenAPIApplyYamlServiceReq.validateServices, if_pos hd]
      · simp only [OpenAPIApplyYamlServiceReq.validateServices, if_neg hd]
        apply ih hrest
        obtain ⟨e, he, hempty⟩ := h
        rcases List.mem_cons.mp he with heq | hmem
        · cases heq
          exact absurd hempty hd
        · exact ⟨e, hmem, hempty⟩

/-- C15: for a request whose `ServiceList` has no nil entry,
`OpenAPIApplyYamlServiceReq.Validate` returns nil if and only if `EnvName` is
non-empty and every entry has a non-empty `ServiceName`; with an empty
`EnvName` the error is "env_name is required" whatever the service names are;
otherwise an empty `ServiceName` anywhere in the list gives "service_name is
required for all services". -/
theorem OpenAPIApplyYamlServiceReq_Validate_acceptance (req : OpenAPIApplyYamlServiceReq)
    (hl : ∀ x ∈ req.ServiceList, x ≠ none) :
    (req.Validate = .ok none ↔
      req.EnvName ≠ "" ∧ ∀ d, some d ∈ req.ServiceList → d.ServiceName ≠ "") ∧
    (req.EnvName = "" → req.Validate = .ok (some "env_name is required")) ∧
    (req.EnvName ≠ "" → (∃ d, some d ∈ req.ServiceList ∧ d.ServiceName = "") →
      req.Validate = .ok (some "service_name is required for all services")) := by
  refine ⟨?_, ?_, ?_⟩
  · by_cases he : req.EnvName = ""
    · simp only [OpenAPIApplyYamlServiceReq.Validate, if_pos he]
      constructor
      · intro h
        cases h
      · intro h
        exact absurd he h.1
    · simp only [OpenAPIApplyYamlServiceReq.Validate, if_neg he,
        validateServices_eq_nil_iff req.ServiceList hl]
      constructor
      · intro h
        exact ⟨he, h⟩
      · intro h
        exact h.2
  · intro he
    simp only [OpenAPIApplyYamlServiceReq.Validate, if_pos he]
  · intro he h
    simp only [OpenAPIApplyYamlServiceReq.Validate, if_neg he]
    exact validateServices_eq_error req.ServiceList hl h

/-- Three requests without nil entries: an empty list is accepted, an empty
env name wins over an empty service name, and one empty service name after a
good one is reported. -/
theorem OpenAPIApplyYamlServiceReq_Validate_acceptance_witness :
    OpenAPIApplyYamlServiceReq.Validate ⟨"dev", []⟩ = .ok none ∧
    OpenAPIApplyYamlServiceReq.Validate ⟨"", [some ⟨"a"⟩, some ⟨""⟩]⟩ =
      .ok (some "env_name is required") ∧
    OpenAPIApplyYamlServiceReq.Validate ⟨"dev", [some ⟨"a"⟩, some ⟨""⟩]⟩ =
      .ok (some "service_name is required for all services") :=
  ⟨(OpenAPIApplyYamlServiceReq_Validate_acceptance ⟨"dev", []⟩ (by simp)).1.mpr
      ⟨by decide, by simp⟩,
   (OpenAPIApplyYamlServiceReq_Validate_acceptance ⟨"", [some ⟨"a"⟩, some ⟨""⟩]⟩
      (by simp)).2.1 rfl,
   (OpenAPIApplyYamlServiceReq_Validate_acceptance ⟨"dev", [some ⟨"a"⟩, some ⟨""⟩]⟩
      (by simp)).2.2 (by decide) ⟨⟨""⟩, by simp, rfl⟩⟩

/-- C16: `OpenAPIEnvCfgArgs.Validate` returns nil if and only if `Name`,
`EnvName`, `ProductName`, `CommonEnvCfgType` and `YamlData` are all non-empty,
and replacing `ServiceName` and `AutoSync` by any other values never changes
its result. -/
theorem OpenAPIEnvCfgArgs_Validate_eq_nil_iff (req : OpenAPIEnvCfgArgs) :
    (req.Validate = none ↔
      req.Name ≠ "" ∧ req.EnvName ≠ "" ∧ req.ProductName ≠ "" ∧
      req.CommonEnvCfgType ≠ "" ∧ req.YamlData ≠ "") ∧
    (∀ (serviceName : String) (autoSync : Bool),
      OpenAPIEnvCfgArgs.Validate { req with ServiceName := serviceName, AutoSync := autoSync } =
        req.Validate) := by
  refine ⟨?_, fun _ _ => rfl⟩
  unfold OpenAPIEnvCfgArgs.Validate
  split_ifs with h1 h2 h3 h4 h5
  · simp [h1]
  · simp [h2]
  · simp [h3]
  · simp [h4]
  · simp [h5]
  · simp [h1, h2, h3, h4, h5]

/-- C17: no value is made ready by both `CheckAndSetReady(ShareEnvEnable)` and
`CheckAndSetReady(ShareEnvDisable)`; and the snapshots with `WorkloadsReady`
true, label true, rules false and sidecar false are made ready by neither. -/
theorem CheckAndSetReady_enable_disable_exclusive :
    (∀ s : ShareEnvReady,
      ¬ ((s.CheckAndSetReady ShareEnvEnable).IsReady = true ∧
         (s.CheckAndSetReady ShareEnvDisable).IsReady = true)) ∧
    (∀ r k : Bool,
      (⟨r, ⟨true, false, false, true, k⟩⟩ : ShareEnvReady).Checks.WorkloadsReady = true ∧
      (ShareEnvReady.CheckAndSetReady ⟨r, ⟨true, false, false, true, k⟩⟩
        ShareEnvEnable).IsReady = false ∧
      (ShareEnvReady.CheckAndSetReady ⟨r, ⟨true, false, false, true, k⟩⟩
        ShareEnvDisable).IsReady = false) := by
  constructor
  · rintro ⟨r, ⟨a, b, c, w, k⟩⟩
    have hne : ShareEnvDisable ≠ ShareEnvEnable := by decide
    cases a <;> cases b <;> cases c <;> cases w <;>
      simp [ShareEnvReady.CheckAndSetReady, hne]
  · intro r k
    cases r <;> cases k <;> decide

/-- Over a list with no nil entry the loop of `GroupsUpdated` returns, and it
returns true exactly when some entry is updatable or the statement after the
loop gives true. -/
theorem rangeServiceRevisions_spec {Container RenderVariableKV : Type} (after : Bool)
    (l : List (Option (SvcRevision Container RenderVariableKV)))
    (hl : ∀ x ∈ l, x ≠ none) :
    ∃ b, ProductRevision.rangeServiceRevisions after l = .ok b ∧
      (b = true ↔ (∃ rev, some rev ∈ l ∧ rev.Updatable = true) ∨ after = true) := by
  induction l with
  | nil => exact ⟨after, rfl, by simp⟩
  | cons x rest ih =>
    have hrest : ∀ y ∈ rest, y ≠ none := fun y hy => hl y (List.mem_cons_of_mem _ hy)
    cases x with
    | none => exact absurd rfl (hl none (List.mem_cons_self _ _))
    | some rev =>
      by_cases hu : rev.Updatable = true
      · refine ⟨true, ?_, ?_⟩
        · simp only [ProductRevision.rangeServiceRevisions, if_pos hu]
        · simp only [true_iff]
          exact Or.inl ⟨rev, List.mem_cons_self _ _, hu⟩
      · obtain ⟨b, hb, hiff⟩ := ih hrest
        refine ⟨b, ?_, ?_⟩
        · simp only [ProductRevision.rangeServiceRevisions, if_neg hu]
          exact hb
        · rw [hiff]
          constructor
          · rintro (⟨e, he, heu⟩ | h)
            · exact Or.inl ⟨e, List.mem_cons_of_mem _ he, heu⟩
            · exact Or.inr h
          · rintro (⟨e, he, heu⟩ | h)
            · rcases List.mem_cons.mp he with heq | hmem
              · cases heq
                exact absurd heu hu
              · exact Or.inl ⟨e, hmem, heu⟩
            · exact Or.inr h

/-- C18: for a `ProductRevision` whose `ServiceRevisions` has no nil entry,
`GroupsUpdated` returns, and it returns true if and only if `ServiceRevisions`
is non-empty and some service revision is updatable or the product itself is;
with a nil or empty `ServiceRevisions` it returns false, also when the
product is updatable. -/
theorem ProductRevision_GroupsUpdated_spec {Container RenderVariableKV : Type}
    (pr : ProductRevision Container RenderVariableKV)
    (hl : ∀ revs, pr.ServiceRevisions = some revs → ∀ x ∈ revs, x ≠ none) :
    (∃ b, pr.GroupsUpdated = .ok b ∧
      (b = true ↔ ∃ revs, pr.ServiceRevisions = some revs ∧ revs ≠ [] ∧
        ((∃ rev, some rev ∈ revs ∧ rev.Updatable = true) ∨ pr.Updatable = true))) ∧
    (pr.ServiceRevisions = none ∨ pr.ServiceRevisions = some [] →
      pr.GroupsUpdated = .ok false) := by
  constructor
  · cases hs : pr.ServiceRevisions with
    | none =>
      refine ⟨false, ?_, by simp⟩
      simp only [ProductRevision.GroupsUpdated, hs]
    | some revs =>
      cases revs with
      | nil =>
        refine ⟨false, ?_, by simp⟩
        simp [ProductRevision.GroupsUpdated, hs]
      | cons x rest =>
        obtain ⟨b, hb, hiff⟩ :=
          rangeServiceRevisions_spec pr.Updatable (x :: rest) (hl (x :: rest) hs)
        refine ⟨b, ?_, ?_⟩
        · simp only [ProductRevision.GroupsUpdated, hs, List.length_cons,
            Nat.succ_ne_zero, if_false]
          exact hb
        · rw [hiff]
          simp
  · rintro (h | h)
    · simp only [ProductRevision.GroupsUpdated, h]
    · simp [ProductRevision.GroupsUpdated, h]

/-- An updatable product with a nil list of service revisions, one with an
empty non-nil list, on both of which `GroupsUpdated` returns false, and a
product that is not updatable itself with one updatable service revision, on
which it returns true. -/
theorem ProductRevision_GroupsUpdated_spec_witness :
    ProductRevision.GroupsUpdated
      (⟨"", "dev", "proj", 1, 2, true, none, false⟩ : ProductRevision Unit Unit) = .ok false ∧
    ProductRevision.GroupsUpdated
      (⟨"", "dev", "proj", 1, 2, true, some [], false⟩ : ProductRevision Unit Unit) =
        .ok false ∧
    ProductRevision.GroupsUpdated
      (⟨"", "dev", "proj", 1, 2, false,
        some [some ⟨"svc", "k8s", 1, 2, true, "", "", false, false, [], false, "", []⟩],
        false⟩ : ProductRevision Unit Unit) = .ok true :=
  ⟨(ProductRevision_GroupsUpdated_spec
      (⟨"", "dev", "proj", 1, 2, true, none, false⟩ : ProductRevision Unit Unit)
      (by intro revs h; cases h)).2 (Or.inl rfl),
   (ProductRevision_GroupsUpdated_spec
      (⟨"", "dev", "proj", 1, 2, true, some [], false⟩ : ProductRevision Unit Unit)
      (by intro revs h x hx; cases h; cases hx)).2 (Or.inr rfl),
   by
    obtain ⟨b, hb, hiff⟩ := (ProductRevision_GroupsUpdated_spec
      (⟨"", "dev", "proj", 1, 2, false,
        some [some ⟨"svc", "k8s", 1, 2, true, "", "", false, false, [], false, "", []⟩],
        false⟩ : ProductRevision Unit Unit)
      (by intro revs h x hx; cases h; simp at hx; simp [hx])).1
    have hbt : b = true :=
      hiff.mpr ⟨_, rfl, by simp, Or.inl ⟨_, List.mem_cons_self _ _, rfl⟩⟩
    rw [hb, hbt]⟩

end service
